import Mathlib

set_option maxRecDepth 40000
set_option maxHeartbeats 1000000

/-!
Verification development for the system-information-detection program
(src/system_info_detection.py).  The Python source is shallowly embedded:

* WMI query results are modelled by the `WmiService` structure, whose fields
  hold either the list of records a query returns or the exception the query
  raises (`PyResult`).
* Ambient library state the script reads (platform strings, the current time,
  the hostname, whether opening the output file succeeds) is collected in
  `Env`.
* Python floats produced by `round(x, 2)` / `round(x, 0)` are modelled as
  exact integers scaled by 100 (centi-GiB); `round` itself is modelled as
  round-half-to-even on exact fractions, which is what Python computes on the
  values reachable here.
* A probe body that raises is modelled by returning `PyResult.exn`; the
  `log_errors` decorator is modelled by the function of the same name, which
  converts an exception into a `none` result plus an `ErrorRecord`.
* `print` side effects are modelled by returning the accumulated output
  string; a crash in the middle of rendering yields the output produced so
  far together with the exception.
-/

/-- A raised Python exception: its type name (lowercased, as the decorator
stores it) and its message. -/
structure PyExn where
  kind : String
  msg : String
deriving DecidableEq

/-- Outcome of running a piece of Python code: a value or a raised exception. -/
inductive PyResult (α : Type) where
  | ok (a : α)
  | exn (e : PyExn)
deriving DecidableEq

/-- Whether a result is a raised exception. -/
def PyResult.isExnB {α : Type} : PyResult α → Bool
  | .ok _ => false
  | .exn _ => true

/-- Python `x or d` for an optional string `x` (None and the empty string are
falsy). -/
def pyOrS (v : Option String) (d : String) : String :=
  match v with
  | none => d
  | some s => if s = "" then d else s

/-- Python `x or d` for a plain string `x` (the empty string is falsy). -/
def pyOrStr (s d : String) : String :=
  if s = "" then d else s

/-- Python truthiness of an optional bool (None is falsy). -/
def pyTruthyB (v : Option Bool) : Bool :=
  match v with
  | some b => b
  | none => false

/-- Python `n or "N/A"` for an optional integer, stringified as the renderer
does (None and 0 are falsy). -/
def pyOrNum (v : Option Nat) : String :=
  match v with
  | none => "N/A"
  | some n => if n = 0 then "N/A" else toString n

/-- Python `f"{v}"` for a raw optional integer (None prints as "None"). -/
def optRepr (v : Option Nat) : String :=
  match v with
  | none => "None"
  | some n => toString n

/-- Python `f"{v}"` for a raw optional string (None prints as "None"). -/
def optStrRepr (v : Option String) : String :=
  match v with
  | none => "None"
  | some s => s

/-- Numeric value of a list of decimal digit characters. -/
def digitsVal (cs : List Char) : Nat :=
  cs.foldl (fun a c => a * 10 + (c.toNat - 48)) 0

/-- Python `int(s)` on a string: an optional sign followed by decimal digits
parses to an integer, anything else raises ValueError. -/
def pyInt (s : String) : PyResult Int :=
  let cs := s.toList
  let body := match cs with
    | '-' :: t => t
    | '+' :: t => t
    | t => t
  let neg := match cs with
    | '-' :: _ => true
    | _ => false
  if body ≠ [] ∧ body.all Char.isDigit then
    .ok (if neg then -(digitsVal body : Int) else (digitsVal body : Int))
  else
    .exn { kind := "valueerror", msg := "invalid literal for int() with base 10" }

/-- ASCII lowercase of one character (the account names compared in the
source are ASCII). -/
def lowerChar (c : Char) : Char :=
  if 65 ≤ c.toNat ∧ c.toNat ≤ 90 then Char.ofNat (c.toNat + 32) else c

/-- Python `s.lower()` (ASCII fragment). -/
def lowerStr (s : String) : String :=
  String.mk (s.toList.map lowerChar)

/-- Does the first list start with the second one? -/
def listStartsWith : List Char → List Char → Bool
  | _, [] => true
  | [], _ :: _ => false
  | a :: as, b :: bs => a == b && listStartsWith as bs

/-- Is `n` a contiguous sublist of `h`? -/
def containsSub (n : List Char) : List Char → Bool
  | [] => n.isEmpty
  | c :: t => listStartsWith (c :: t) n || containsSub n t

/-- Python `needle in hay` on strings. -/
def strContains (hay needle : String) : Bool :=
  containsSub needle.toList hay.toList

/-- Python `round(p / q)` for an exact fraction with `q > 0`:
round half to even. -/
def pyRoundHalfEvenFrac (p q : Int) : Int :=
  let f := Int.fdiv p q
  let r := p - f * q
  if 2 * r < q then f else if 2 * r > q then f + 1 else if f % 2 = 0 then f else f + 1

/-- `round(bytes / (1024**3), 2)` as an exact value scaled by 100. -/
def round2centi (bytes : Int) : Int :=
  pyRoundHalfEvenFrac (bytes * 100) (1024 ^ 3)

/-- `round(bytes / (1024**3), 0)` as an exact value scaled by 100 (the result
is an integral float, so the scaled value is a multiple of 100). -/
def round0centi (bytes : Int) : Int :=
  100 * pyRoundHalfEvenFrac bytes (1024 ^ 3)

/-- Python `f"{v}"` for the float `v/100`: decimal text with at least one
fractional digit and no trailing zero beyond that, matching `repr` of the
floats produced by `round(x, 2)` / `round(x, 0)` here. -/
def floatRepr (centi : Int) : String :=
  let neg := centi < 0
  let m := if neg then -centi else centi
  let ip := m / 100
  let fr := m % 100
  (if neg then "-" else "") ++ toString ip ++ "." ++
    (if fr = 0 then "0"
     else if fr % 10 = 0 then toString (fr / 10)
     else if fr < 10 then "0" ++ toString fr
     else toString fr)

/-! ## WMI record model (fields the source reads; absent/null is `none`) -/

/-- One `Win32_ComputerSystem` record. -/
structure WmiComputerSystem where
  Caption : Option String
  UserName : Option String
  Domain : Option String
deriving DecidableEq

/-- One `Win32_OperatingSystem` record. -/
structure WmiOperatingSystem where
  InstallDate : Option String
deriving DecidableEq

/-- One `Win32_UserAccount` record. -/
structure WmiUserAccount where
  Name : Option String
  Domain : Option String
  SID : Option String
  Disabled : Option Bool
deriving DecidableEq

/-- One `Win32_BaseBoard` record. -/
structure WmiBaseBoard where
  Manufacturer : Option String
  Product : Option String
  SerialNumber : Option String
deriving DecidableEq

/-- One `Win32_Processor` record. -/
structure WmiProcessor where
  Name : Option String
  MaxClockSpeed : Option Nat
  NumberOfCores : Option Nat
  NumberOfLogicalProcessors : Option Nat
deriving DecidableEq

/-- One `Win32_PhysicalMemory` record (`Capacity` is a decimal string in WMI). -/
structure WmiPhysicalMemory where
  Capacity : Option String
  Manufacturer : Option String
  Speed : Option Nat
deriving DecidableEq

/-- One `Win32_VideoController` record. -/
structure WmiVideoController where
  Name : Option String
deriving DecidableEq

/-- One logical disk reached through
`associators("Win32_LogicalDiskToPartition")` (sizes are decimal strings). -/
structure WmiLogicalDisk where
  Caption : Option String
  Size : Option String
  FreeSpace : Option String
deriving DecidableEq

/-- One disk partition reached through
`associators("Win32_DiskDriveToDiskPartition")`, carrying its associated
logical disks. -/
structure WmiDiskPartition where
  logicalDisks : List WmiLogicalDisk
deriving DecidableEq

/-- One `Win32_DiskDrive` record with its associated partitions. -/
structure WmiDiskDrive where
  Caption : Option String
  Size : Option String
  MediaType : Option String
  partitions : List WmiDiskPartition
deriving DecidableEq

/-- One `Win32_NetworkAdapterConfiguration(IPEnabled=True)` record. -/
structure WmiNicConfig where
  Description : Option String
  IPAddress : Option (List String)
  IPSubnet : Option (List String)
  DefaultIPGateway : Option (List String)
  DNSServerSearchOrder : Option (List String)
  DHCPEnabled : Option Bool
deriving DecidableEq

/-- The management-interface session: each field is the outcome of the
corresponding WMI query (the list of records it returns, or the exception it
raises). -/
structure WmiService where
  Win32_ComputerSystem : PyResult (List WmiComputerSystem)
  Win32_OperatingSystem : PyResult (List WmiOperatingSystem)
  Win32_UserAccount : PyResult (List WmiUserAccount)
  Win32_BaseBoard : PyResult (List WmiBaseBoard)
  Win32_Processor : PyResult (List WmiProcessor)
  Win32_PhysicalMemory : PyResult (List WmiPhysicalMemory)
  Win32_VideoController : PyResult (List WmiVideoController)
  Win32_DiskDrive : PyResult (List WmiDiskDrive)
  Win32_NetworkAdapterConfiguration : PyResult (List WmiNicConfig)
deriving DecidableEq

/-- Ambient library state the script reads: `platform` module values,
`datetime.now()` (as a civil day number and preformatted strings),
`socket.gethostname()`, and whether creating/opening the output file
succeeds. -/
structure Env where
  platform_system : String
  platform_architecture0 : String
  platform_win32_ver0 : String
  platform_win32_ver1 : String
  nowRata : Int
  nowStr : String
  nowStamp : String
  hostname : String
  openResult : Option PyExn
deriving DecidableEq

/-! ## Date helpers (model of `datetime.strptime(s, "%Y%m%d")` and day
subtraction) -/

/-- Gregorian leap year. -/
def isLeap (y : Int) : Bool :=
  y % 4 == 0 && (y % 100 != 0 || y % 400 == 0)

/-- Days in a month of the Gregorian calendar. -/
def daysInMonth (y m : Int) : Int :=
  if m = 2 then (if isLeap y then 29 else 28)
  else if m = 4 ∨ m = 6 ∨ m = 9 ∨ m = 11 then 30
  else 31

/-- Civil day number of a Gregorian date (days since 1970-01-01). -/
def daysFromCivil (y m d : Int) : Int :=
  let y2 := if m ≤ 2 then y - 1 else y
  let era := (if y2 ≥ 0 then y2 else y2 - 399) / 400
  let yoe := y2 - era * 400
  let mp := (m + 9) % 12
  let doy := (153 * mp + 2) / 5 + d - 1
  let doe := yoe * 365 + yoe / 4 - yoe / 100 + doy
  era * 146097 + doe - 719468

/-- Model of `datetime.strptime(s, "%Y%m%d")`: eight decimal digits forming a
valid date, otherwise ValueError. -/
def strptimeYmd (s : String) : PyResult (Int × Int × Int) :=
  let cs := s.toList
  if cs.length = 8 ∧ cs.all Char.isDigit then
    let y : Int := (digitsVal (cs.take 4) : Int)
    let m : Int := (digitsVal ((cs.drop 4).take 2) : Int)
    let d : Int := (digitsVal (cs.drop 6) : Int)
    if 1 ≤ m ∧ m ≤ 12 ∧ 1 ≤ d ∧ d ≤ daysInMonth y m then .ok (y, m, d)
    else .exn { kind := "valueerror", msg := "time data does not match format" }
  else .exn { kind := "valueerror", msg := "time data does not match format" }

/-! ## Probe results (the category dictionaries the probes build) -/

/-- `host_detection` entry. -/
structure HostInfo where
  hostname : String
  username : String
  domain : String
deriving DecidableEq

/-- `os_detection` entry. -/
structure OsInfo where
  install_date : String
  name : String
  architecture : String
  version : String
  version_info : String
deriving DecidableEq

/-- `account_detection` entry. -/
structure AccountEntry where
  username : String
  domain : String
  sid : String
  disabled : String
deriving DecidableEq

/-- `motherboard_detection` entry. -/
structure MoboEntry where
  manufacturer : String
  model : String
  serial_number : String
deriving DecidableEq

/-- `cpu_detection` entry. -/
structure CpuEntry where
  name : String
  max_clock_speed : String
  cores : String
  threads : String
deriving DecidableEq

/-- `ram_detection` entry; `capacity` is the rounded GiB float, scaled by
100. -/
structure RamEntry where
  capacity : Int
  manufacturer : String
  speed : String
deriving DecidableEq

/-- `gpu_detection` entry. -/
structure GpuEntry where
  name : String
deriving DecidableEq

/-- One partition line of `storage_detection`; `name` is the raw
`logical_disk.Caption` (no substitution), sizes are rounded GiB floats scaled
by 100, with `none` for the string "N/A". -/
structure PartitionEntry where
  name : Option String
  total_size : Option Int
  free_size : Option Int
deriving DecidableEq

/-- `storage_detection` entry. -/
structure DiskEntry where
  name : String
  size : Option Int
  type : String
  partitions : List PartitionEntry
deriving DecidableEq

/-- `nic_detection` entry; `dns_servers` is `none` when the probe stored the
string "N/A" instead of a list, `dhcp_enabled` is the raw WMI value. -/
structure NicEntry where
  description : String
  ip_address : String
  subnet_mask : String
  default_gateway : String
  dns_servers : Option (List String)
  dhcp_enabled : Option Bool
deriving DecidableEq

/-- A value stored in the `system_info` dictionary: either the Python `None`
left by a failed probe, or one category's result.  Numbered dictionaries
(keys 1..n) are modelled as lists of (index, entry) pairs. -/
inductive ProbeValue where
  | pyNone
  | host (h : Option HostInfo)
  | os (o : OsInfo)
  | accounts (l : List (Nat × AccountEntry))
  | mobos (l : List (Nat × MoboEntry))
  | cpus (l : List (Nat × CpuEntry))
  | rams (l : List (Nat × RamEntry))
  | gpus (l : List (Nat × GpuEntry))
  | disks (l : List (Nat × DiskEntry))
  | nics (l : List (Nat × NicEntry))
deriving DecidableEq

/-- The `system_info` dictionary: insertion-ordered key/value pairs. -/
def SystemInfo : Type := List (String × ProbeValue)

instance : DecidableEq SystemInfo := by
  unfold SystemInfo
  infer_instance

/-- `enumerate(l, start=1)` packed into the numbered dictionary the probes
build. -/
def enum1 {α : Type} (l : List α) : List (Nat × α) :=
  l.enum.map fun p => (p.1 + 1, p.2)

/-- Map a partial operation over a list, stopping at (and returning) the
first raised exception, as a Python for-loop does. -/
def pyMapM {α β : Type} (f : α → PyResult β) : List α → PyResult (List β)
  | [] => .ok []
  | a :: t =>
    match f a with
    | .exn e => .exn e
    | .ok b =>
      match pyMapM f t with
      | .exn e => .exn e
      | .ok bs => .ok (b :: bs)

/-! ## Probes (one per source function, body for body) -/

/-- `host_detection`: the loop rebuilds the dict per record, so the last
record wins; an empty query leaves the empty dict. -/
def host_detection (svc : WmiService) : PyResult ProbeValue :=
  match svc.Win32_ComputerSystem with
  | .exn e => .exn e
  | .ok l =>
    .ok (.host (l.getLast?.map fun c =>
      { hostname := pyOrS c.Caption "N/A"
        username := pyOrS c.UserName "N/A"
        domain := pyOrS c.Domain "N/A" }))

/-- `os_detection`: indexes the first record (IndexError when empty), slices
`InstallDate[:8]` (TypeError when null), parses it, and combines with the
`platform` module values. -/
def os_detection (env : Env) (svc : WmiService) : PyResult ProbeValue :=
  match svc.Win32_OperatingSystem with
  | .exn e => .exn e
  | .ok [] => .exn { kind := "indexerror", msg := "list index out of range" }
  | .ok (o :: _) =>
    match o.InstallDate with
    | none => .exn { kind := "typeerror", msg := "NoneType object is not subscriptable" }
    | some s =>
      let s8 := String.mk (s.toList.take 8)
      match strptimeYmd s8 with
      | .exn e => .exn e
      | .ok (y, m, d) =>
        let days := env.nowRata - daysFromCivil y m d
        .ok (.os
          { install_date := s8 ++ " (" ++ toString days ++ " days ago)"
            name := pyOrStr env.platform_system "N/A"
            architecture := pyOrStr env.platform_architecture0 "N/A"
            version := pyOrStr env.platform_win32_ver0 "N/A"
            version_info := pyOrStr env.platform_win32_ver1 "N/A" })

/-- The account names `account_detection` excludes. -/
def excluded_accounts : List String :=
  ["defaultaccount", "wdagutilityaccount", "guest"]

/-- One kept account mapped to its dictionary entry. -/
def accountEntry (a : WmiUserAccount) : AccountEntry :=
  { username := pyOrS a.Name "N/A"
    domain := pyOrS a.Domain "N/A"
    sid := pyOrS a.SID "N/A"
    disabled := if pyTruthyB a.Disabled then "Yes" else "No" }

/-- `account_detection`: `account.Name.lower()` raises AttributeError if any
name is null; otherwise excluded names are filtered out and the rest are
numbered from 1 in interface order. -/
def account_detection (svc : WmiService) : PyResult ProbeValue :=
  match svc.Win32_UserAccount with
  | .exn e => .exn e
  | .ok accounts =>
    if accounts.any fun a => a.Name.isNone then
      .exn { kind := "attributeerror", msg := "NoneType object has no attribute lower" }
    else
      let user_accounts :=
        accounts.filter fun a => ! excluded_accounts.contains (lowerStr (a.Name.getD ""))
      .ok (.accounts (enum1 (user_accounts.map accountEntry)))

/-- `motherboard_detection`. -/
def motherboard_detection (svc : WmiService) : PyResult ProbeValue :=
  match svc.Win32_BaseBoard with
  | .exn e => .exn e
  | .ok l =>
    .ok (.mobos (enum1 (l.map fun b =>
      { manufacturer := pyOrS b.Manufacturer "N/A"
        model := pyOrS b.Product "N/A"
        serial_number := pyOrS b.SerialNumber "N/A" })))

/-- `cpu_detection`: note `f"{cpu.MaxClockSpeed} MHz"` stringifies a raw null
as "None MHz", and `or "N/A"` on it is a no-op because the f-string is never
empty. -/
def cpu_detection (svc : WmiService) : PyResult ProbeValue :=
  match svc.Win32_Processor with
  | .exn e => .exn e
  | .ok l =>
    .ok (.cpus (enum1 (l.map fun c =>
      { name := pyOrS c.Name "N/A"
        max_clock_speed := optRepr c.MaxClockSpeed ++ " MHz"
        cores := pyOrNum c.NumberOfCores
        threads := pyOrNum c.NumberOfLogicalProcessors })))

/-- One memory stick mapped to its dictionary entry;
`int(ram.Capacity)` raises TypeError on null and ValueError on a malformed
string. -/
def ramEntry (r : WmiPhysicalMemory) : PyResult RamEntry :=
  match r.Capacity with
  | none => .exn { kind := "typeerror", msg := "int() argument must not be None" }
  | some s =>
    match pyInt s with
    | .exn e => .exn e
    | .ok n =>
      .ok { capacity := round2centi n
            manufacturer := pyOrS r.Manufacturer "N/A"
            speed := pyOrNum r.Speed }

/-- `ram_detection`: capacity is converted to GiB and rounded to 2 decimal
places. -/
def ram_detection (svc : WmiService) : PyResult ProbeValue :=
  match svc.Win32_PhysicalMemory with
  | .exn e => .exn e
  | .ok l =>
    match pyMapM ramEntry l with
    | .exn e => .exn e
    | .ok es => .ok (.rams (enum1 es))

/-- `gpu_detection`. -/
def gpu_detection (svc : WmiService) : PyResult ProbeValue :=
  match svc.Win32_VideoController with
  | .exn e => .exn e
  | .ok l =>
    .ok (.gpus (enum1 (l.map fun g => ({ name := pyOrS g.Name "N/A" } : GpuEntry))))

/-- A size field guarded by `if x is not None`, converted with
`round(int(x) / 1024**3, k)`; `none` stands for the stored string "N/A". -/
def sizeField (v : Option String) (twoDecimals : Bool) : PyResult (Option Int) :=
  match v with
  | none => .ok none
  | some s =>
    match pyInt s with
    | .exn e => .exn e
    | .ok n => .ok (some (if twoDecimals then round2centi n else round0centi n))

/-- One logical disk mapped to a partition entry: the name is the raw
`Caption` (no "N/A" substitution in the source), sizes are rounded to 0
decimal places. -/
def partitionEntry (ld : WmiLogicalDisk) : PyResult PartitionEntry :=
  match sizeField ld.Size false with
  | .exn e => .exn e
  | .ok t =>
    match sizeField ld.FreeSpace false with
    | .exn e => .exn e
    | .ok f => .ok { name := ld.Caption, total_size := t, free_size := f }

/-- One disk drive mapped to its dictionary entry: size rounded to 2 decimal
places, type from an "SSD" substring test, partitions from the two chained
association traversals flattened. -/
def diskEntry (d : WmiDiskDrive) : PyResult DiskEntry :=
  match sizeField d.Size true with
  | .exn e => .exn e
  | .ok sz =>
    match pyMapM partitionEntry (d.partitions.map (fun p => p.logicalDisks)).flatten with
    | .exn e => .exn e
    | .ok ps =>
      .ok { name := pyOrS d.Caption "N/A"
            size := sz
            type := if strContains (d.MediaType.getD "") "SSD"
                      || strContains (d.Caption.getD "") "SSD"
                    then "SSD" else "HDD"
            partitions := ps }

/-- `storage_detection`. -/
def storage_detection (svc : WmiService) : PyResult ProbeValue :=
  match svc.Win32_DiskDrive with
  | .exn e => .exn e
  | .ok l =>
    match pyMapM diskEntry l with
    | .exn e => .exn e
    | .ok es => .ok (.disks (enum1 es))

/-- One NIC mapped to its dictionary entry (first list element or "N/A";
`dns_servers` keeps the list only when truthy; `dhcp_enabled` is raw). -/
def nicEntry (n : WmiNicConfig) : NicEntry :=
  { description := pyOrS n.Description "N/A"
    ip_address := match n.IPAddress with
      | some (x :: _) => x
      | _ => "N/A"
    subnet_mask := match n.IPSubnet with
      | some (x :: _) => x
      | _ => "N/A"
    default_gateway := match n.DefaultIPGateway with
      | some (x :: _) => x
      | _ => "N/A"
    dns_servers := match n.DNSServerSearchOrder with
      | some (x :: xs) => some (x :: xs)
      | _ => none
    dhcp_enabled := n.DHCPEnabled }

/-- `nic_detection`. -/
def nic_detection (svc : WmiService) : PyResult ProbeValue :=
  match svc.Win32_NetworkAdapterConfiguration with
  | .exn e => .exn e
  | .ok l => .ok (.nics (enum1 (l.map nicEntry)))

/-! ## Fault boundary (`log_errors` decorator and `log_error`) -/

/-- One entry of the error log: the dictionary `log_error` serializes (the
traceback-derived line/file fields are environment data and are abstracted
away; the probe name, error type and message are kept). -/
structure ErrorRecord where
  time : String
  function : String
  type : String
  error : String
deriving DecidableEq

/-- `log_error(func, e, type(e).__name__.lower())`: build the record appended
to the error log. -/
def log_error (env : Env) (funcName : String) (e : PyExn) : ErrorRecord :=
  { time := env.nowStr, function := funcName, type := e.kind, error := e.msg }

/-- The `log_errors` decorator around one call: a raised exception is
swallowed, one `ErrorRecord` is appended to the log, and the call returns
Python `None` (modelled as `none`); a normal return passes through with no
record. -/
def log_errors {α : Type} (env : Env) (funcName : String) (r : PyResult α) :
    Option α × List ErrorRecord :=
  match r with
  | .ok a => (some a, [])
  | .exn e => (none, [log_error env funcName e])

/-! ## Renderer (`print_info`): each section returns the text it printed and
the exception it raised, if any.  A section that receives the `None` left by
a failed probe crashes (TypeError/KeyError/AttributeError), exactly where the
source would. -/

/-- `space` from the source. -/
def space : String := "\t  "

/-- `space * 2` from the source. -/
def space2 : String := space ++ space

/-- The Host section: the header prints before the first field access, so a
null or empty `host_info` leaves just the header behind and raises. -/
def hostSection : ProbeValue → String × Option PyExn
  | .host (some h) =>
    ("\nHost:" ++ space2 ++ "Hostname ....... : " ++ h.hostname ++ "\n"
      ++ space2 ++ "Username ....... : " ++ h.username ++ "\n"
      ++ space2 ++ "Domain ......... : " ++ h.domain ++ "\n", none)
  | .pyNone =>
    ("\nHost:", some { kind := "typeerror", msg := "NoneType object is not subscriptable" })
  | _ =>
    ("\nHost:", some { kind := "keyerror", msg := "hostname" })

/-- The Operating System section. -/
def osSection : ProbeValue → String × Option PyExn
  | .os o =>
    ("\nOperation System: " ++ "Description .... : " ++ o.name ++ " " ++ o.version
      ++ " " ++ o.architecture ++ " (" ++ o.version_info ++ ")\n"
      ++ space2 ++ "install_date ... : " ++ o.install_date ++ "\n", none)
  | .pyNone =>
    ("\nOperation System: ",
      some { kind := "typeerror", msg := "NoneType object is not subscriptable" })
  | _ =>
    ("\nOperation System: ", some { kind := "keyerror", msg := "name" })

/-- One account block. -/
def accountBlock (p : Nat × AccountEntry) : String :=
  "\nAccount" ++ toString p.1 ++ ":" ++ space ++ "Username ....... : " ++ p.2.username ++ "\n"
    ++ space2 ++ "Domain ......... : " ++ p.2.domain ++ "\n"
    ++ space2 ++ "SID Number ..... : " ++ p.2.sid ++ "\n"
    ++ space2 ++ "Disabled ....... : " ++ p.2.disabled ++ "\n"

/-- The accounts section: iterating `.items()` on `None` raises before any
output. -/
def accountSection : ProbeValue → String × Option PyExn
  | .accounts l => (String.join (l.map accountBlock), none)
  | _ => ("", some { kind := "attributeerror", msg := "NoneType object has no attribute items" })

/-- One motherboard block. -/
def moboBlock (p : Nat × MoboEntry) : String :=
  "\nMotherboard" ++ toString p.1 ++ ":" ++ space ++ "Manufacturer ... : "
      ++ p.2.manufacturer ++ "\n"
    ++ space2 ++ "Product ........ : " ++ p.2.model ++ "\n"
    ++ space2 ++ "SerialNumber  .. : " ++ p.2.serial_number ++ "\n"

/-- The motherboard section. -/
def moboSection : ProbeValue → String × Option PyExn
  | .mobos l => (String.join (l.map moboBlock), none)
  | _ => ("", some { kind := "attributeerror", msg := "NoneType object has no attribute items" })

/-- One CPU block. -/
def cpuBlock (p : Nat × CpuEntry) : String :=
  "\nCPU" ++ toString p.1 ++ ":" ++ space2 ++ "Description .... : " ++ p.2.name ++ "\n"
    ++ space2 ++ "Clock Speed .... : " ++ p.2.max_clock_speed ++ "\n"
    ++ space2 ++ "Cores .......... : " ++ p.2.cores ++ "\n"
    ++ space2 ++ "Threads ........ : " ++ p.2.threads ++ "\n"

/-- The CPU section. -/
def cpuSection : ProbeValue → String × Option PyExn
  | .cpus l => (String.join (l.map cpuBlock), none)
  | _ => ("", some { kind := "attributeerror", msg := "NoneType object has no attribute items" })

/-- One RAM block. -/
def ramBlock (p : Nat × RamEntry) : String :=
  "\nRAM" ++ toString p.1 ++ ":" ++ space2 ++ "Capacity ....... : "
      ++ floatRepr p.2.capacity ++ " GB\n"
    ++ space2 ++ "Manufacturer ... : " ++ p.2.manufacturer ++ "\n"
    ++ space2 ++ "Speed .......... : " ++ p.2.speed ++ " MHz\n"

/-- The RAM section. -/
def ramSection : ProbeValue → String × Option PyExn
  | .rams l => (String.join (l.map ramBlock), none)
  | _ => ("", some { kind := "attributeerror", msg := "NoneType object has no attribute items" })

/-- A stored size value: the rounded float, or the string "N/A". -/
def sizeRepr (v : Option Int) : String :=
  match v with
  | none => "N/A"
  | some c => floatRepr c

/-- One partition line. -/
def partitionLine (idx : Nat) (p : PartitionEntry) : String :=
  space2 ++ "Partition #" ++ toString idx ++ " ... : " ++ "Letter: " ++ optStrRepr p.name
    ++ " (Size: " ++ sizeRepr p.free_size ++ "/" ++ sizeRepr p.total_size ++ " GB)\n"

/-- One storage block (disk line plus its numbered partition lines). -/
def diskBlock (p : Nat × DiskEntry) : String :=
  "\n" ++ p.2.type ++ toString p.1 ++ ":" ++ space2 ++ "Description .... : " ++ p.2.name ++ "\n"
    ++ space2 ++ "Size ........... : " ++ sizeRepr p.2.size ++ " GB\n"
    ++ String.join ((enum1 p.2.partitions).map fun q => partitionLine q.1 q.2)

/-- The storage section. -/
def storageSection : ProbeValue → String × Option PyExn
  | .disks l => (String.join (l.map diskBlock), none)
  | _ => ("", some { kind := "attributeerror", msg := "NoneType object has no attribute items" })

/-- One GPU block. -/
def gpuBlock (p : Nat × GpuEntry) : String :=
  "\nGPU" ++ toString p.1 ++ ":   " ++ space ++ "Description .... : " ++ p.2.name ++ "\n"

/-- The GPU section. -/
def gpuSection : ProbeValue → String × Option PyExn
  | .gpus l => (String.join (l.map gpuBlock), none)
  | _ => ("", some { kind := "attributeerror", msg := "NoneType object has no attribute items" })

/-- `', '.join(dns)`: joining the list, or — when the probe stored the string
"N/A" — joining its three characters. -/
def dnsRepr (v : Option (List String)) : String :=
  match v with
  | some l => String.intercalate ", " l
  | none => String.intercalate ", " ["N", "/", "A"]

/-- One NIC block. -/
def nicBlock (p : Nat × NicEntry) : String :=
  "\nNIC" ++ toString p.1 ++ ":" ++ space2 ++ "Description .... : " ++ p.2.description ++ "\n"
    ++ space2 ++ "IP Address ..... : " ++ p.2.ip_address ++ "\n"
    ++ space2 ++ "Subnet Mask .... : " ++ p.2.subnet_mask ++ "\n"
    ++ space2 ++ "DefaultGateway . : " ++ p.2.default_gateway ++ "\n"
    ++ space2 ++ "DNS Servers .... : " ++ dnsRepr p.2.dns_servers ++ "\n"
    ++ space2 ++ "DHCP Enabled ... : " ++ (if pyTruthyB p.2.dhcp_enabled then "Yes" else "No") ++ "\n"

/-- The NIC section. -/
def nicSection : ProbeValue → String × Option PyExn
  | .nics l => (String.join (l.map nicBlock), none)
  | _ => ("", some { kind := "attributeerror", msg := "NoneType object has no attribute items" })

/-- Run one more section unless an earlier one already raised; output printed
so far is kept either way. -/
def seqR (a b : String × Option PyExn) : String × Option PyExn :=
  match a.2 with
  | some _ => a
  | none => (a.1 ++ b.1, b.2)

/-- `print_info(system_info)`: looks up the nine keys (KeyError stops
everything before any output), then prints the sections in source order,
stopping at the first exception.  Returns the text printed so far and the
exception, if one was raised. -/
def print_info (si : SystemInfo) : String × Option PyExn :=
  match List.lookup "host_info" si with
  | none => ("", some { kind := "keyerror", msg := "host_info" })
  | some hv =>
  match List.lookup "os_info" si with
  | none => ("", some { kind := "keyerror", msg := "os_info" })
  | some ov =>
  match List.lookup "account_info" si with
  | none => ("", some { kind := "keyerror", msg := "account_info" })
  | some av =>
  match List.lookup "motherboard_info" si with
  | none => ("", some { kind := "keyerror", msg := "motherboard_info" })
  | some mv =>
  match List.lookup "cpu_info" si with
  | none => ("", some { kind := "keyerror", msg := "cpu_info" })
  | some cv =>
  match List.lookup "ram_info" si with
  | none => ("", some { kind := "keyerror", msg := "ram_info" })
  | some rv =>
  match List.lookup "storage_info" si with
  | none => ("", some { kind := "keyerror", msg := "storage_info" })
  | some sv =>
  match List.lookup "gpu_info" si with
  | none => ("", some { kind := "keyerror", msg := "gpu_info" })
  | some gv =>
  match List.lookup "nic_info" si with
  | none => ("", some { kind := "keyerror", msg := "nic_info" })
  | some nv =>
    seqR (seqR (seqR (seqR (seqR (seqR (seqR (seqR (hostSection hv)
      (osSection ov)) (accountSection av)) (moboSection mv)) (cpuSection cv))
      (ramSection rv)) (storageSection sv)) (gpuSection gv)) (nicSection nv)

/-! ## Report sink (`generate_output`) -/

/-- The persisted artifact: its path and the bytes left in it. -/
structure FileOut where
  path : String
  content : String
deriving DecidableEq

/-- Result of `generate_output`: the file left on disk (if any), the error
records this call appended, and the message it printed to the console. -/
structure SinkResult where
  file : Option FileOut
  records : List ErrorRecord
  message : String
deriving DecidableEq

/-- `generate_output(system_info)`: build the output path from the hostname
and timestamp; if creating/opening the file raises, the call's own
`log_errors` wrapper turns that into one record and nothing is written.
Otherwise `print_info` is rendered straight into the file — a crash partway
is caught by `print_info`'s own wrapper (one record naming `print_info`),
the partial text remains in the file, and the success message still prints. -/
def generate_output (env : Env) (si : SystemInfo) : SinkResult :=
  match env.openResult with
  | some e => { file := none, records := [log_error env "generate_output" e], message := "" }
  | none =>
    let path := "info/" ++ env.hostname ++ "_" ++ env.nowStamp ++ ".txt"
    { file := some { path := path, content := (print_info si).1 }
      records := match (print_info si).2 with
        | some e => [log_error env "print_info" e]
        | none => []
      message := "\n\x1b[92mExported system information successfully to: "
        ++ path ++ "\x1b[0m\n" }

/-! ## Runner (`run_detection`) -/

/-- One (info_key, probe) pair of the `detections` list, together with the
probe function's `__name__`. -/
structure Detection where
  key : String
  name : String
  fn : Env → WmiService → PyResult ProbeValue

/-- The fixed `detections` list, in source order. -/
def detections : List Detection :=
  [ { key := "host_info", name := "host_detection", fn := fun _ s => host_detection s }
  , { key := "account_info", name := "account_detection", fn := fun _ s => account_detection s }
  , { key := "os_info", name := "os_detection", fn := fun e s => os_detection e s }
  , { key := "motherboard_info", name := "motherboard_detection", fn := fun _ s => motherboard_detection s }
  , { key := "cpu_info", name := "cpu_detection", fn := fun _ s => cpu_detection s }
  , { key := "ram_info", name := "ram_detection", fn := fun _ s => ram_detection s }
  , { key := "gpu_info", name := "gpu_detection", fn := fun _ s => gpu_detection s }
  , { key := "storage_info", name := "storage_detection", fn := fun _ s => storage_detection s }
  , { key := "nic_info", name := "nic_detection", fn := fun _ s => nic_detection s } ]

/-- One probe invocation under its `log_errors` wrapper: the dictionary gets
the probe's value, or the Python `None` the wrapper returned after logging. -/
def runProbe (env : Env) (d : Detection) (svc : WmiService) :
    ProbeValue × List ErrorRecord :=
  match log_errors env d.name (d.fn env svc) with
  | (some v, recs) => (v, recs)
  | (none, recs) => (ProbeValue.pyNone, recs)

/-- A progress event: the INITIALIZING line (`start`) or the OK line
(`complete`); the OK line prints after the probe returns, whether or not it
failed. -/
inductive Phase where
  | start
  | complete
deriving DecidableEq

/-- One printed progress line (its timestamp text is environment data and is
not modelled). -/
structure Event where
  phase : Phase
  index : Nat
  total : Nat
  name : String
deriving DecidableEq

/-- State accumulated by the probe loop of `run_detection`. -/
structure ProbePhase where
  snapshot : SystemInfo
  records : List ErrorRecord
  events : List Event
deriving DecidableEq

/-- The probe loop, one detection at a time: emit the INITIALIZING event, run
the probe under the fault boundary, store its result under its key, emit the
OK event. -/
def runProbesAux (env : Env) (svc : WmiService) (total : Nat) :
    Nat → List Detection → ProbePhase
  | _, [] => { snapshot := [], records := [], events := [] }
  | idx, d :: rest =>
    let pr := runProbe env d svc
    let tail := runProbesAux env svc total (idx + 1) rest
    { snapshot := (d.key, pr.1) :: tail.snapshot
      records := pr.2 ++ tail.records
      events := { phase := .start, index := idx, total := total, name := d.name }
        :: { phase := .complete, index := idx, total := total, name := d.name }
        :: tail.events }

/-- The probe loop over the whole `detections` list (indices start at 1). -/
def runProbes (env : Env) (svc : WmiService) : ProbePhase :=
  runProbesAux env svc detections.length 1 detections

/-- Everything one `run_detection()` call produces. -/
structure RunResult where
  snapshot : SystemInfo
  records : List ErrorRecord
  events : List Event
  console : String
  file : Option FileOut
deriving DecidableEq

/-- `run_detection()`: run all probes, print the report to the console
(`print_info`, whose own wrapper logs a record if it crashes), then persist
it (`generate_output`).  `records` collects every error record the run
appends to the process-wide log, in order. -/
def run_detection (env : Env) (svc : WmiService) : RunResult :=
  let pp := runProbes env svc
  let consoleRecs := match (print_info pp.snapshot).2 with
    | some e => [log_error env "print_info" e]
    | none => []
  { snapshot := pp.snapshot
    records := pp.records ++ consoleRecs ++ (generate_output env pp.snapshot).records
    events := pp.events
    console := (print_info pp.snapshot).1
    file := (generate_output env pp.snapshot).file }

/-- `example_function(x, y)`: integer division used by the module-level
example; division by zero raises. -/
def example_function (x y : Int) : PyResult Int :=
  if y = 0 then .exn { kind := "zerodivisionerror", msg := "division by zero" }
  else .ok (Int.fdiv x y)

/-! ## Concrete fixtures used by witnesses and counterexamples -/

/-- A concrete ambient environment with a working output directory. -/
def envC1 : Env :=
  { platform_system := "Windows"
    platform_architecture0 := "64bit"
    platform_win32_ver0 := "10"
    platform_win32_ver1 := "10.0.19045"
    nowRata := daysFromCivil 2026 10 12
    nowStr := "2026-10-12 09:00:00"
    nowStamp := "2026-10-12_09-00-00"
    hostname := "HOSTX"
    openResult := none }

/-- The same environment but with the output file failing to open. -/
def envFail : Env :=
  { envC1 with openResult := some { kind := "oserror", msg := "No space left on device" } }

/-- A management interface on which only the cpu probe raises (the scenario
of P6): every other query returns real records. -/
def svcC1 : WmiService :=
  { Win32_ComputerSystem :=
      .ok [{ Caption := some "HOSTX", UserName := some "HOSTX\\amin", Domain := some "WORKGROUP" }]
    Win32_OperatingSystem :=
      .ok [{ InstallDate := some "20240101000000.000000+000" }]
    Win32_UserAccount :=
      .ok [ { Name := some "amin", Domain := some "HOSTX", SID := some "S-1-5-21-1", Disabled := some false }
          , { Name := some "Guest", Domain := some "HOSTX", SID := some "S-1-5-21-2", Disabled := some true } ]
    Win32_BaseBoard :=
      .ok [{ Manufacturer := some "ASUS", Product := some "PRIME B550", SerialNumber := some "MB123" }]
    Win32_Processor :=
      .exn { kind := "zerodivisionerror", msg := "division by zero" }
    Win32_PhysicalMemory :=
      .ok [{ Capacity := some "17179869184", Manufacturer := some "Samsung", Speed := some 3200 }]
    Win32_VideoController :=
      .ok [{ Name := some "NVIDIA GeForce" }]
    Win32_DiskDrive :=
      .ok [ { Caption := some "Samsung SSD 970"
            , Size := some "500107862016"
            , MediaType := some "Fixed hard disk media"
            , partitions :=
                [{ logicalDisks :=
                    [{ Caption := some "C:", Size := some "499000000000", FreeSpace := some "100000000000" }] }] } ]
    Win32_NetworkAdapterConfiguration :=
      .ok [ { Description := some "Ethernet"
            , IPAddress := some ["192.168.1.2"]
            , IPSubnet := some ["255.255.255.0"]
            , DefaultIPGateway := some ["192.168.1.1"]
            , DNSServerSearchOrder := some ["8.8.8.8", "1.1.1.1"]
            , DHCPEnabled := some true } ] }

/-- A management interface on which every probe succeeds and the one logical
disk has a null `Caption`, so the raw null flows into the snapshot. -/
def svcC8 : WmiService :=
  { Win32_ComputerSystem :=
      .ok [{ Caption := some "HOSTX", UserName := some "u", Domain := some "d" }]
    Win32_OperatingSystem :=
      .ok [{ InstallDate := some "20240101000000.000000+000" }]
    Win32_UserAccount := .ok []
    Win32_BaseBoard := .ok []
    Win32_Processor := .ok []
    Win32_PhysicalMemory := .ok []
    Win32_VideoController := .ok []
    Win32_DiskDrive :=
      .ok [ { Caption := some "DiskX"
            , Size := some "500107862016"
            , MediaType := none
            , partitions :=
                [{ logicalDisks :=
                    [{ Caption := none, Size := some "499000000000", FreeSpace := some "100000000000" }] }] } ]
    Win32_NetworkAdapterConfiguration := .ok [] }

/-- A management interface on which every query returns no records. -/
def svcBase : WmiService :=
  { Win32_ComputerSystem := .ok []
    Win32_OperatingSystem := .ok []
    Win32_UserAccount := .ok []
    Win32_BaseBoard := .ok []
    Win32_Processor := .ok []
    Win32_PhysicalMemory := .ok []
    Win32_VideoController := .ok []
    Win32_DiskDrive := .ok []
    Win32_NetworkAdapterConfiguration := .ok [] }

/-- A service with one memory stick whose `Capacity` string is `s`. -/
def ramSvc (s : String) : WmiService :=
  { svcBase with
    Win32_PhysicalMemory := PyResult.ok [{ Capacity := some s, Manufacturer := none, Speed := none }] }

/-- A service with one disk of size string `t` holding one logical disk of
size string `u` (free space null). -/
def diskSvc (t u : String) : WmiService :=
  { svcBase with
    Win32_DiskDrive := PyResult.ok
      [ { Caption := none
        , Size := some t
        , MediaType := none
        , partitions := [{ logicalDisks := [{ Caption := none, Size := some u, FreeSpace := none }] }] } ] }

/-- A service whose user-account query returns `l`. -/
def accountSvc (l : List WmiUserAccount) : WmiService :=
  { svcBase with Win32_UserAccount := .ok l }

/-- Concrete account list: a built-in (Guest), a regular user, and another
built-in (DefaultAccount, mixed case). -/
def accW : List WmiUserAccount :=
  [ { Name := some "Guest", Domain := some "HOSTX", SID := some "S-1", Disabled := some true }
  , { Name := some "amin", Domain := some "HOSTX", SID := some "S-2", Disabled := some false }
  , { Name := some "DefaultAccount", Domain := some "HOSTX", SID := some "S-3", Disabled := some true } ]

/-! ## Helper lemmas -/

/-- The names logged by the probe loop are exactly the names of the probes
whose bodies raised, in loop order. -/
theorem runProbesAux_records_map (env : Env) (svc : WmiService) (total : Nat) :
    ∀ (l : List Detection) (idx : Nat),
      (runProbesAux env svc total idx l).records.map ErrorRecord.function
        = (l.filter fun d => (d.fn env svc).isExnB).map Detection.name := by
  intro l
  induction l with
  | nil => intro idx; rfl
  | cons d rest ih =>
    intro idx
    cases h : d.fn env svc with
    | ok v =>
      simp [runProbesAux, runProbe, log_errors, h, List.filter_cons, PyResult.isExnB, ih]
    | exn e =>
      simp [runProbesAux, runProbe, log_errors, log_error, h, List.filter_cons,
        PyResult.isExnB, ih]

/-! ## Claims -/

/-- Claim C1 (amended): on a run where only the cpu probe raises, the
snapshot holds real results for the other 8 keys and `None` for cpu, and
exactly one of the three appended ErrorRecords names `cpu_detection` — but
the rendered report is truncated: it shows only the host, OS, account and
motherboard sections, with no cpu section (empty or "N/A") and none of the
sections that come after cpu in render order. -/
theorem cpu_fault_run_behavior :
    ((run_detection envC1 svcC1).snapshot.map fun p =>
        (p.1, decide (p.2 = ProbeValue.pyNone)))
      = [("host_info", false), ("account_info", false), ("os_info", false),
         ("motherboard_info", false), ("cpu_info", true), ("ram_info", false),
         ("gpu_info", false), ("storage_info", false), ("nic_info", false)]
  ∧ ((run_detection envC1 svcC1).records.filter fun r =>
        decide (r.function = "cpu_detection")).length = 1
  ∧ (run_detection envC1 svcC1).records.length = 3
  ∧ strContains (run_detection envC1 svcC1).console "\nHost:" = true
  ∧ strContains (run_detection envC1 svcC1).console "\nOperation System: " = true
  ∧ strContains (run_detection envC1 svcC1).console "\nAccount1:" = true
  ∧ strContains (run_detection envC1 svcC1).console "\nMotherboard1:" = true
  ∧ strContains (run_detection envC1 svcC1).console "CPU" = false
  ∧ strContains (run_detection envC1 svcC1).console "\nRAM" = false
  ∧ strContains (run_detection envC1 svcC1).console "N/A" = false := by
  decide

/-- Claim C1 counterexample: in the run where only the cpu probe raises, the
gpu probe produced real data in the snapshot, yet the rendered report does
not show the GPU category at all — refuting "the rendered report still shows
every non-cpu category". -/
theorem cpu_fault_report_counterexample :
    List.lookup "gpu_info" (run_detection envC1 svcC1).snapshot
        = some (ProbeValue.gpus [(1, { name := "NVIDIA GeForce" })])
  ∧ strContains (run_detection envC1 svcC1).console "GPU" = false := by
  decide

/-- Claim C2 (amended): the `log_errors` boundary never re-raises; on success
it returns the probe's result unchanged with no ErrorRecord, and on any
exception it returns Python `None` (not an empty per-category mapping)
together with exactly one ErrorRecord. -/
theorem log_errors_boundary_behavior (env : Env) (funcName : String)
    (r : PyResult ProbeValue) :
    (∀ v, r = PyResult.ok v → log_errors env funcName r = (some v, []))
  ∧ (∀ e, r = PyResult.exn e →
        log_errors env funcName r = (none, [log_error env funcName e])) := by
  constructor
  · intro v hv
    rw [hv]
    rfl
  · intro e he
    rw [he]
    rfl

/-- Witness for C2 at a concrete failing probe call. -/
theorem log_errors_boundary_behavior_witness :
    log_errors envC1 "cpu_detection"
        (PyResult.exn { kind := "zerodivisionerror", msg := "division by zero" }
          : PyResult ProbeValue)
      = (none, [log_error envC1 "cpu_detection"
          { kind := "zerodivisionerror", msg := "division by zero" }]) :=
  (log_errors_boundary_behavior envC1 "cpu_detection" _).2 _ rfl

/-- Claim C2 counterexample: on an exception the boundary's result value is
`None`, not a safe default of the category's shape such as the empty cpu
mapping — refuting "returns ... an empty mapping/list, never a null/absent
value". -/
theorem log_errors_null_result_counterexample :
    (log_errors envC1 "cpu_detection"
        (PyResult.exn { kind := "zerodivisionerror", msg := "division by zero" }
          : PyResult ProbeValue)).1 = none
  ∧ (log_errors envC1 "cpu_detection"
        (PyResult.exn { kind := "zerodivisionerror", msg := "division by zero" }
          : PyResult ProbeValue)).1 ≠ some (ProbeValue.cpus []) := by
  decide

/-- Claim C3: for every environment and every management interface — hence
for every subset of failing probes — the snapshot at the end of the run
contains exactly the 9 declared keys in declaration order, no key missing
and none extra. -/
theorem snapshot_has_nine_keys (env : Env) (svc : WmiService) :
    (run_detection env svc).snapshot.map Prod.fst
      = ["host_info", "account_info", "os_info", "motherboard_info", "cpu_info",
         "ram_info", "gpu_info", "storage_info", "nic_info"] := rfl

/-- Claim C4 (amended): the probe phase appends exactly one ErrorRecord per
throwing probe, in probe order; but the run as a whole appends further
records — one from the console render and one from the file render of
`print_info` whenever rendering crashes on a `None` probe result — so the
full log of a run is the probe records plus those rendering/sink records. -/
theorem error_log_records_per_phase (env : Env) (svc : WmiService) :
    ((runProbes env svc).records.map ErrorRecord.function
        = ((detections.filter fun d => (d.fn env svc).isExnB).map Detection.name))
  ∧ (run_detection env svc).records
      = (runProbes env svc).records
        ++ (match (print_info (runProbes env svc).snapshot).2 with
            | some e => [log_error env "print_info" e]
            | none => [])
        ++ (generate_output env (runProbes env svc).snapshot).records :=
  ⟨runProbesAux_records_map env svc detections.length detections 1, rfl⟩

/-- Claim C4 counterexample: in a run where exactly one probe (cpu) throws,
the log gains three records, not one — the cpu record plus two extra records
from the crashed renderer — refuting "no extra record is written". -/
theorem error_log_extra_records_counterexample :
    (run_detection envC1 svcC1).records.map ErrorRecord.function
        = ["cpu_detection", "print_info", "print_info"]
  ∧ ["cpu_detection", "print_info", "print_info"] ≠ ["cpu_detection"] := by
  decide

/-- Claim C5 (amended): probes pre-convert byte counts to GiB dividing by
1024³; RAM capacities are rounded to 2 decimal places (17179869184 bytes
renders as "16.0 GB"), partition total/free sizes are rounded to 0 decimal
places, but disk sizes are rounded to 2 decimal places, not 0. -/
theorem rounding_policy (s t u : String) (n m k : Int)
    (h1 : pyInt s = PyResult.ok n) (h2 : pyInt t = PyResult.ok m)
    (h3 : pyInt u = PyResult.ok k) :
    ram_detection (ramSvc s)
        = PyResult.ok (ProbeValue.rams
            [(1, { capacity := round2centi n, manufacturer := "N/A", speed := "N/A" })])
  ∧ storage_detection (diskSvc t u)
        = PyResult.ok (ProbeValue.disks
            [(1, { name := "N/A", size := some (round2centi m), type := "HDD",
                   partitions := [{ name := none, total_size := some (round0centi k),
                                    free_size := none }] })])
  ∧ floatRepr (round2centi 17179869184) ++ " GB" = "16.0 GB" := by
  refine ⟨?_, ?_, by decide⟩
  · simp [ram_detection, ramSvc, svcBase, pyMapM, ramEntry, h1, enum1, pyOrS, pyOrNum]
  · simp [storage_detection, diskSvc, svcBase, pyMapM, diskEntry, partitionEntry,
      sizeField, h2, h3, enum1, pyOrS, strContains, containsSub]

/-- Witness for C5 at the spec's concrete capacity and a 1.5 GiB disk. -/
theorem rounding_policy_witness :
    pyInt "17179869184" = PyResult.ok 17179869184
  ∧ (ram_detection (ramSvc "17179869184")
        = PyResult.ok (ProbeValue.rams
            [(1, { capacity := round2centi 17179869184, manufacturer := "N/A",
                   speed := "N/A" })])
    ∧ storage_detection (diskSvc "1610612736" "1610612736")
        = PyResult.ok (ProbeValue.disks
            [(1, { name := "N/A", size := some (round2centi 1610612736), type := "HDD",
                   partitions := [{ name := none,
                                    total_size := some (round0centi 1610612736),
                                    free_size := none }] })])
    ∧ floatRepr (round2centi 17179869184) ++ " GB" = "16.0 GB") :=
  ⟨by decide,
   rounding_policy "17179869184" "1610612736" "1610612736"
     17179869184 1610612736 1610612736 (by decide) (by decide) (by decide)⟩

/-- Claim C5 counterexample: a 1610612736-byte (1.5 GiB) disk is stored with
size 1.5 (two-decimal rounding), which differs from the 0-decimal rounding
the claim asserts for disk sizes. -/
theorem disk_size_rounding_counterexample :
    storage_detection (diskSvc "1610612736" "1610612736")
        = PyResult.ok (ProbeValue.disks
            [(1, { name := "N/A", size := some 150, type := "HDD",
                   partitions := [{ name := none, total_size := some 200,
                                    free_size := none }] })])
  ∧ (150 : Int) ≠ round0centi 1610612736 := by
  decide

/-- Claim C6: the renderer is a pure function of the snapshot, so the
persisted file's bytes are exactly the report text printed live to the
console (even when rendering crashed partway, both destinations got the same
partial text). -/
theorem render_file_matches_console (env : Env) (svc : WmiService)
    (h : env.openResult = none) :
    (run_detection env svc).file
      = some { path := "info/" ++ env.hostname ++ "_" ++ env.nowStamp ++ ".txt"
             , content := (run_detection env svc).console } := by
  simp [run_detection, generate_output, h]

/-- Witness for C6 on a concrete run. -/
theorem render_file_matches_console_witness :
    (run_detection envC1 svcC1).file
      = some { path := "info/" ++ envC1.hostname ++ "_" ++ envC1.nowStamp ++ ".txt"
             , content := (run_detection envC1 svcC1).console } :=
  render_file_matches_console envC1 svcC1 rfl

/-- Claim C7: progress events are emitted in the fixed declared probe order,
one (start, complete) pair per category with start immediately before
complete, independent of the environment and of which probes fail. -/
theorem progress_event_order (env : Env) (svc : WmiService) :
    (run_detection env svc).events =
      [ { phase := .start, index := 1, total := 9, name := "host_detection" }
      , { phase := .complete, index := 1, total := 9, name := "host_detection" }
      , { phase := .start, index := 2, total := 9, name := "account_detection" }
      , { phase := .complete, index := 2, total := 9, name := "account_detection" }
      , { phase := .start, index := 3, total := 9, name := "os_detection" }
      , { phase := .complete, index := 3, total := 9, name := "os_detection" }
      , { phase := .start, index := 4, total := 9, name := "motherboard_detection" }
      , { phase := .complete, index := 4, total := 9, name := "motherboard_detection" }
      , { phase := .start, index := 5, total := 9, name := "cpu_detection" }
      , { phase := .complete, index := 5, total := 9, name := "cpu_detection" }
      , { phase := .start, index := 6, total := 9, name := "ram_detection" }
      , { phase := .complete, index := 6, total := 9, name := "ram_detection" }
      , { phase := .start, index := 7, total := 9, name := "gpu_detection" }
      , { phase := .complete, index := 7, total := 9, name := "gpu_detection" }
      , { phase := .start, index := 8, total := 9, name := "storage_detection" }
      , { phase := .complete, index := 8, total := 9, name := "storage_detection" }
      , { phase := .start, index := 9, total := 9, name := "nic_detection" }
      , { phase := .complete, index := 9, total := 9, name := "nic_detection" } ] := rfl

/-- Claim C8 (amended): null-safety is a probe responsibility, not a
rendering one — probes substitute "N/A" via `or "N/A"` (shown for a null
hostname), while the renderer performs no substitution: a raw null a probe
passes through (the partition name) renders as Python's "None", not as
"N/A". -/
theorem null_substitution_in_probes (u d : Option String) :
    host_detection { svcBase with
        Win32_ComputerSystem := PyResult.ok [{ Caption := none, UserName := u, Domain := d }] }
      = PyResult.ok (ProbeValue.host (some
          { hostname := "N/A", username := pyOrS u "N/A", domain := pyOrS d "N/A" }))
  ∧ strContains (print_info (runProbes envC1 svcC8).snapshot).1 "Letter: None" = true := by
  refine ⟨rfl, by decide⟩

/-- Claim C8 counterexample: a snapshot produced by a run whose storage probe
passed a raw null partition name through is rendered with the literal "None",
and no "N/A" substitution happens for that field — refuting "every null field
is rendered with the literal N/A substitution". -/
theorem renderer_raw_null_counterexample :
    strContains (print_info (runProbes envC1 svcC8).snapshot).1 "Letter: None" = true
  ∧ strContains (print_info (runProbes envC1 svcC8).snapshot).1 "Letter: N/A" = false := by
  decide

/-- Claim C9 (amended): the report sink is not atomic — when rendering into
the already-opened output file fails partway, the partial text remains
visible in the file (recorded by one ErrorRecord naming `print_info`); only
a failure to create/open the file leaves no file, surfacing as a single
ErrorRecord naming `generate_output`, and neither failure aborts the run. -/
theorem report_sink_failure_behavior (env : Env) (si : SystemInfo) :
    (∀ e, env.openResult = some e →
        generate_output env si
          = { file := none, records := [log_error env "generate_output" e], message := "" })
  ∧ (env.openResult = none →
        (generate_output env si).file
          = some { path := "info/" ++ env.hostname ++ "_" ++ env.nowStamp ++ ".txt"
                 , content := (print_info si).1 }
        ∧ (generate_output env si).records
            = (match (print_info si).2 with
               | some e => [log_error env "print_info" e]
               | none => [])) := by
  constructor
  · intro e he
    simp [generate_output, he]
  · intro he
    constructor
    · simp [generate_output, he]
    · simp [generate_output, he]

/-- Witness for C9: a concrete failing open leaves no file and one record. -/
theorem report_sink_failure_behavior_witness :
    generate_output envFail (runProbes envC1 svcC8).snapshot
      = { file := none
        , records := [log_error envFail "generate_output"
            { kind := "oserror", msg := "No space left on device" }]
        , message := "" } :=
  (report_sink_failure_behavior envFail (runProbes envC1 svcC8).snapshot).1
    { kind := "oserror", msg := "No space left on device" } rfl

/-- Claim C9 counterexample: in the run where the cpu probe fails, rendering
into the report file raises partway, yet a non-empty, incompletely rendered
file is left visible — refuting "no partially written output file is left
visible". -/
theorem incomplete_file_visible_counterexample :
    (print_info (run_detection envC1 svcC1).snapshot).2
        = some { kind := "attributeerror", msg := "NoneType object has no attribute items" }
  ∧ (run_detection envC1 svcC1).file.map FileOut.content
        = some (print_info (run_detection envC1 svcC1).snapshot).1
  ∧ (print_info (run_detection envC1 svcC1).snapshot).1 ≠ "" := by
  decide

/-- Claim C10: for every account list the interface returns (with non-null
names, which is what the lowercasing step presupposes), the account probe
keeps exactly the accounts whose lowercased name is not a built-in
(defaultaccount, wdagutilityaccount, guest), numbered from 1 in interface
order. -/
theorem account_filters_builtin (l : List WmiUserAccount)
    (h : ∀ a ∈ l, a.Name ≠ none) :
    account_detection (accountSvc l)
      = PyResult.ok (ProbeValue.accounts (enum1
          ((l.filter fun a =>
              ! excluded_accounts.contains (lowerStr (a.Name.getD ""))).map accountEntry))) := by
  have hnone : (l.any fun a => a.Name.isNone) = false := by
    rw [List.any_eq_false]
    intro a ha
    simp only [Option.isNone_iff_eq_none]
    exact h a ha
  simp [account_detection, accountSvc, svcBase, hnone]

/-- Witness for C10: Guest and DefaultAccount are dropped, amin is kept and
numbered 1. -/
theorem account_filters_builtin_witness :
    account_detection (accountSvc accW)
      = PyResult.ok (ProbeValue.accounts
          [(1, { username := "amin", domain := "HOSTX", sid := "S-2", disabled := "No" })]) := by
  have h := account_filters_builtin accW (by decide)
  rw [h]
  decide
